import Mathlib

/-!
Shallow embedding of the task registry and job runner of `src/web_api.py`
(PocketFlow tutorial-generator web API).

The Python module keeps an in-memory dict `tasks` mapping a task id to a
mutable record `{"status": ..., "result": ..., "error": ...}`.  A Python
dict preserves insertion order and has unique keys, so the registry is
modelled as an association list `List (String × TaskData)` together with
dict-style insertion (`dictInsert`: replace in place if the key is
present, append otherwise) and first-match lookup (`dictLookup`).

The endpoint handlers `generate_tutorial`, `get_status` and `list_tasks`
and the background worker `run_pocketflow` are translated function by
function.  The outcome of the external subprocess (and of the directory
setup preceding it) is abstracted as a `RunEvent` parameter: the Python
worker's observable effect on the registry is a pure function of the task
id, the request, that event, and the registry contents.
-/

namespace WebApi

/-- The payload stored under `"result"` on success in `run_pocketflow`
(`src/web_api.py` lines 138-144). -/
structure TaskResult where
  output_path : String
  message : String
  stdout : String
  repo_url : String
  language : String
deriving DecidableEq, Repr

/-- One entry of the `tasks` dict: `{"status": ..., "result": ..., "error": ...}`. -/
structure TaskData where
  status : String
  result : Option TaskResult
  error : Option String
deriving DecidableEq, Repr

/-- The in-memory task registry: Python's insertion-ordered dict `tasks`. -/
abbrev Registry : Type := List (String × TaskData)

/-- Python dict assignment `tasks[k] = v`: replace the entry in place when
the key is present, append a new entry otherwise. -/
def dictInsert (k : String) (v : TaskData) : Registry → Registry
  | [] => [(k, v)]
  | (k', v') :: rest => if k' = k then (k, v) :: rest else (k', v') :: dictInsert k v rest

/-- Python dict lookup `tasks.get(k)` / membership test `k in tasks`. -/
def dictLookup (k : String) : Registry → Option TaskData
  | [] => none
  | (k', v) :: rest => if k' = k then some v else dictLookup k rest

/-- The request body of `POST /generate-tutorial` (`RepositoryRequest` in
`src/web_api.py`). -/
structure RepositoryRequest where
  repo_url : String
  language : String := "english"
  include_patterns : List String := ["*.py", "*.js"]
  exclude_patterns : List String := ["tests/*"]
  max_size : Int := 100000
deriving DecidableEq, Repr

/-- The response model of `POST /generate-tutorial`. -/
structure TutorialResponse where
  task_id : String
  status : String
  message : String
deriving DecidableEq, Repr

/-- The response model of `GET /status/take`-style lookups (`StatusResponse`). -/
structure StatusResponse where
  task_id : String
  status : String
  result : Option TaskResult
  error : Option String
deriving DecidableEq, Repr

/-- One element of the `tasks` array returned by `GET /tasks`. -/
structure TaskSummary where
  task_id : String
  status : String
  has_result : Bool
deriving DecidableEq, Repr

/-- The response of `GET /tasks`. -/
structure ListTasksResponse where
  total_tasks : Nat
  tasks : List TaskSummary
deriving DecidableEq, Repr

/-- `POST /generate-tutorial` (`generate_tutorial`, `src/web_api.py` lines
57-69): insert a fresh task in state `processing` with empty result/error
and answer immediately.  The fresh uuid4 string is a parameter here. -/
def generate_tutorial (task_id : String) (tasks : Registry) :
    TutorialResponse × Registry :=
  (⟨task_id, "processing",
    "Tutorial generation started. Use /status/{task_id} to check progress."⟩,
    dictInsert task_id ⟨"processing", none, none⟩ tasks)

/-- `GET /status/...` (`get_status`, `src/web_api.py` lines 71-87): unknown
ids yield the synthetic `not_found` response with error `"Task not found"`;
known ids echo the stored fields. -/
def get_status (task_id : String) (tasks : Registry) : StatusResponse :=
  match dictLookup task_id tasks with
  | none => ⟨task_id, "not_found", none, some "Task not found"⟩
  | some td => ⟨task_id, td.status, td.result, td.error⟩

/-- `GET /tasks` (`list_tasks`, `src/web_api.py` lines 89-102). -/
def list_tasks (tasks : Registry) : ListTasksResponse :=
  { total_tasks := tasks.length,
    tasks := tasks.map fun p => ⟨p.1, p.2.status, p.2.result.isSome⟩ }

/-- Python's `s[-n:]` on a string: the last `min n (length s)` characters. -/
def pyTail (n : Nat) (s : String) : String :=
  ⟨s.data.drop (s.data.length - n)⟩

/-- The task-scoped output directory `f"./output/{task_id}"`
(`src/web_api.py` line 106). -/
def outputDir (task_id : String) : String :=
  "./output/" ++ task_id

/-- What the attempt to set up and run the external `python main.py`
process can come to, seen from `run_pocketflow`:

* `setupFail msg`: an exception (with text `msg`) raised before the
  subprocess is launched, e.g. by `os.makedirs` (line 109) — the
  `"running"` status write (lines 129-130) has not happened yet;
* `exits returncode out err`: `subprocess.run` returned a completed
  process with the given return code, captured stdout and stderr;
* `timedOut out err`: `subprocess.run` raised `subprocess.TimeoutExpired`
  after 300 seconds; `out`/`err` are whatever the process had produced,
  which the handler (lines 154-160) ignores;
* `runFail msg`: any other exception (text `msg`) raised by the
  subprocess call, handled by the broad `except Exception` clause. -/
inductive RunEvent where
  | setupFail (msg : String)
  | exits (returncode : Int) (out err : String)
  | timedOut (out err : String)
  | runFail (msg : String)
deriving DecidableEq, Repr

/-- Lines 129-130 of `src/web_api.py`:
`if task_id in tasks: tasks[task_id]["status"] = "running"`. -/
def markRunning (task_id : String) (tasks : Registry) : Registry :=
  match dictLookup task_id tasks with
  | some td => dictInsert task_id { td with status := "running" } tasks
  | none => tasks

/-- The background worker `run_pocketflow` (`src/web_api.py` lines
104-167) as a registry transformer.  Mirrors the Python control flow:

* an exception before the subprocess launch falls through to the broad
  `except Exception` handler, whose write is guarded by `task_id in tasks`;
* otherwise the guarded `"running"` status write happens first;
* a finished process triggers an **unguarded** dict assignment to
  `completed` (return code 0, lines 136-146) or `failed` (lines 148-152);
* the `TimeoutExpired` and `Exception` handlers write `failed`, both
  guarded by `task_id in tasks` (lines 155 and 162).

The function is total: no event makes it raise to its caller. -/
def run_pocketflow (task_id : String) (request : RepositoryRequest)
    (ev : RunEvent) (tasks : Registry) : Registry :=
  match ev with
  | .setupFail msg =>
      if (dictLookup task_id tasks).isSome then
        dictInsert task_id
          ⟨"failed", none, some ("Unexpected error: " ++ msg)⟩ tasks
      else tasks
  | .exits returncode out err =>
      let tasks1 := markRunning task_id tasks
      if returncode = 0 then
        dictInsert task_id
          ⟨"completed",
            some ⟨outputDir task_id, "Tutorial generated successfully",
              if out = "" then "" else pyTail 500 out,
              request.repo_url, request.language⟩,
            none⟩ tasks1
      else
        dictInsert task_id
          ⟨"failed", none,
            some ("Command failed with return code " ++ toString returncode
              ++ ": " ++ err)⟩ tasks1
  | .timedOut _ _ =>
      let tasks1 := markRunning task_id tasks
      if (dictLookup task_id tasks1).isSome then
        dictInsert task_id
          ⟨"failed", none, some "Task timed out after 5 minutes"⟩ tasks1
      else tasks1
  | .runFail msg =>
      let tasks1 := markRunning task_id tasks
      if (dictLookup task_id tasks1).isSome then
        dictInsert task_id
          ⟨"failed", none, some ("Unexpected error: " ++ msg)⟩ tasks1
      else tasks1

/-- Registries reachable from the empty initial registry by the
operations that write it:

* `create`: task creation (`POST /generate-tutorial`, line 60);
* `running`: the snapshot a concurrent poller can observe after the
  worker's guarded `"running"` status write (lines 129-130) and before its
  terminal write — the registry holds the task in state `"running"` for
  the whole subprocess run (up to 300 seconds).  When the worker reaches
  line 129 its record is still the freshly created
  `{"status": "processing", "result": None, "error": None}`: the record
  was written at creation (line 60) and its only other writer is this
  worker itself, invoked once per task id — hence the hypothesis;
* `run`: a `run_pocketflow` execution carried to its end.  Applied after
  a `running` snapshot of the same task id it re-runs `markRunning`,
  which leaves an already-`"running"` record unchanged, so the final
  registry is the one the program produces. -/
inductive Reachable : Registry → Prop
  | init : Reachable []
  | create (task_id : String) {ts : Registry} :
      Reachable ts → Reachable (generate_tutorial task_id ts).2
  | running (task_id : String) {ts : Registry}
      (h : dictLookup task_id ts = some ⟨"processing", none, none⟩) :
      Reachable ts → Reachable (markRunning task_id ts)
  | run (task_id : String) (request : RepositoryRequest) (ev : RunEvent)
      {ts : Registry} :
      Reachable ts → Reachable (run_pocketflow task_id request ev ts)

/-! ### Dictionary lemmas -/

theorem dictLookup_dictInsert_self (k : String) (v : TaskData) (ts : Registry) :
    dictLookup k (dictInsert k v ts) = some v := by
  induction ts with
  | nil => simp [dictInsert, dictLookup]
  | cons p rest ih =>
    obtain ⟨k', v'⟩ := p
    by_cases h : k' = k
    · simp [dictInsert, dictLookup, h]
    · simp [dictInsert, dictLookup, h, ih]

theorem dictLookup_dictInsert_ne (k k' : String) (v : TaskData) (ts : Registry)
    (h : k' ≠ k) : dictLookup k' (dictInsert k v ts) = dictLookup k' ts := by
  induction ts with
  | nil => simp [dictInsert, dictLookup, Ne.symm h]
  | cons p rest ih =>
    obtain ⟨k'', v''⟩ := p
    by_cases hk : k'' = k
    · subst hk
      simp [dictInsert, dictLookup, Ne.symm h]
    · simp only [dictInsert, if_neg hk, dictLookup, ih]

theorem keys_dictInsert (k : String) (v : TaskData) (ts : Registry) :
    (dictInsert k v ts).map Prod.fst =
      if k ∈ ts.map Prod.fst then ts.map Prod.fst else ts.map Prod.fst ++ [k] := by
  induction ts with
  | nil => simp [dictInsert]
  | cons p rest ih =>
    obtain ⟨k', v'⟩ := p
    by_cases h : k' = k
    · subst h
      simp [dictInsert]
    · by_cases hm : k ∈ rest.map Prod.fst
      · simp [dictInsert, h, hm, ih, Ne.symm h]
      · simp [dictInsert, h, hm, ih, Ne.symm h]

theorem nodup_keys_dictInsert (k : String) (v : TaskData) (ts : Registry)
    (h : (ts.map Prod.fst).Nodup) : ((dictInsert k v ts).map Prod.fst).Nodup := by
  rw [keys_dictInsert]
  by_cases hm : k ∈ ts.map Prod.fst
  · simpa [hm] using h
  · simp only [hm, if_false]
    exact List.Nodup.append h (List.nodup_singleton k)
      (by simpa [List.disjoint_singleton] using hm)

theorem mem_dictInsert_weak {p : String × TaskData} {k : String} {v : TaskData}
    {ts : Registry} (h : p ∈ dictInsert k v ts) : p = (k, v) ∨ p ∈ ts := by
  induction ts with
  | nil => simpa [dictInsert] using h
  | cons q rest ih =>
    obtain ⟨k', v'⟩ := q
    by_cases hk : k' = k
    · subst hk
      rcases (by simpa [dictInsert] using h : p = (k', v) ∨ p ∈ rest) with h1 | h1
      · exact Or.inl h1
      · exact Or.inr (List.mem_cons_of_mem _ h1)
    · rcases (by simpa [dictInsert, hk] using h : p = (k', v') ∨ p ∈ dictInsert k v rest)
        with h1 | h1
      · exact Or.inr (by simp [h1])
      · rcases ih h1 with h2 | h2
        · exact Or.inl h2
        · exact Or.inr (List.mem_cons_of_mem _ h2)

theorem mem_dictInsert_strong {p : String × TaskData} {k : String} {v : TaskData}
    {ts : Registry} (hnd : (ts.map Prod.fst).Nodup) (h : p ∈ dictInsert k v ts) :
    p = (k, v) ∨ (p.1 ≠ k ∧ p ∈ ts) := by
  induction ts with
  | nil => simpa [dictInsert] using h
  | cons q rest ih =>
    obtain ⟨k', v'⟩ := q
    simp only [List.map_cons, List.nodup_cons] at hnd
    by_cases hk : k' = k
    · subst hk
      rcases (by simpa [dictInsert] using h : p = (k', v) ∨ p ∈ rest) with h1 | h1
      · exact Or.inl h1
      · refine Or.inr ⟨?_, List.mem_cons_of_mem _ h1⟩
        intro he
        exact hnd.1 (he ▸ List.mem_map_of_mem Prod.fst h1)
    · rcases (by simpa [dictInsert, hk] using h : p = (k', v') ∨ p ∈ dictInsert k v rest)
        with h1 | h1
      · exact Or.inr ⟨by simp [h1, hk], by simp [h1]⟩
      · rcases ih hnd.2 h1 with h2 | h2
        · exact Or.inl h2
        · exact Or.inr ⟨h2.1, List.mem_cons_of_mem _ h2.2⟩

theorem mem_dictLookup {k : String} {td : TaskData} {ts : Registry}
    (hnd : (ts.map Prod.fst).Nodup) (h : (k, td) ∈ ts) :
    dictLookup k ts = some td := by
  induction ts with
  | nil => simp at h
  | cons p rest ih =>
    obtain ⟨k', v'⟩ := p
    simp only [List.map_cons, List.nodup_cons] at hnd
    rcases List.mem_cons.mp h with h1 | h1
    · obtain ⟨hk, hv⟩ := Prod.mk.injEq .. ▸ h1.symm
      simp [dictLookup, hk, hv]
    · by_cases hk : k' = k
      · subst hk
        exact absurd (List.mem_map_of_mem Prod.fst h1) hnd.1
      · simp only [dictLookup, if_neg hk]
        exact ih hnd.2 h1

/-! ### markRunning lemmas -/

theorem keys_markRunning (k : String) (ts : Registry) :
    (markRunning k ts).map Prod.fst = ts.map Prod.fst := by
  unfold markRunning
  cases hl : dictLookup k ts with
  | none => rfl
  | some td =>
    rw [keys_dictInsert]
    have hmem : k ∈ ts.map Prod.fst := by
      induction ts with
      | nil => simp [dictLookup] at hl
      | cons p rest ih =>
        obtain ⟨k', v'⟩ := p
        by_cases hk : k' = k
        · simp [hk]
        · simp only [dictLookup, hk, if_false] at hl
          simpa using Or.inr (ih hl)
    simp [hmem]

theorem mem_markRunning_of_ne {p : String × TaskData} {k : String} {ts : Registry}
    (hnd : (ts.map Prod.fst).Nodup) (hne : p.1 ≠ k) (h : p ∈ markRunning k ts) :
    p ∈ ts := by
  unfold markRunning at h
  cases hl : dictLookup k ts with
  | none => rwa [hl] at h
  | some td =>
    rw [hl] at h
    rcases mem_dictInsert_strong hnd h with h1 | h1
    · exact absurd (by simp [h1]) hne
    · exact h1.2

theorem dictLookup_markRunning_self (k : String) (ts : Registry) :
    dictLookup k (markRunning k ts) =
      (dictLookup k ts).map fun td => { td with status := "running" } := by
  unfold markRunning
  cases hl : dictLookup k ts with
  | none => simp [hl]
  | some td => simp [dictLookup_dictInsert_self]

/-! ### The registry invariant -/

/-- Well-formedness of a single stored task record: the status is one of
the four stored lifecycle statuses, and the result/error fields agree with
it — both empty while non-terminal, exactly the matching one populated
when terminal. -/
def taskOk (td : TaskData) : Prop :=
  (td.status = "processing" ∧ td.result = none ∧ td.error = none) ∨
  (td.status = "running" ∧ td.result = none ∧ td.error = none) ∨
  (td.status = "completed" ∧ td.result.isSome ∧ td.error = none) ∨
  (td.status = "failed" ∧ td.result = none ∧ td.error.isSome)

instance (td : TaskData) : Decidable (taskOk td) := by
  unfold taskOk
  infer_instance

/-- Well-formedness of the whole registry: task ids are pairwise distinct
(a dict) and every stored record satisfies `taskOk`. -/
def registryOk (ts : Registry) : Prop :=
  (ts.map Prod.fst).Nodup ∧ ∀ p ∈ ts, taskOk p.2

instance (ts : Registry) : Decidable (registryOk ts) := by
  unfold registryOk
  infer_instance

theorem registryOk_dictInsert {ts : Registry} {k : String} {v : TaskData}
    (h : registryOk ts) (hv : taskOk v) : registryOk (dictInsert k v ts) := by
  refine ⟨nodup_keys_dictInsert k v ts h.1, fun p hp => ?_⟩
  rcases mem_dictInsert_weak hp with h1 | h1
  · simpa [h1] using hv
  · exact h.2 p h1

theorem registryOk_terminalWrite {ts : Registry} {k : String} {v : TaskData}
    (h : registryOk ts) (hv : taskOk v) :
    registryOk (dictInsert k v (markRunning k ts)) := by
  have hnd1 : ((markRunning k ts).map Prod.fst).Nodup := by
    rw [keys_markRunning]; exact h.1
  refine ⟨nodup_keys_dictInsert k v _ hnd1, fun p hp => ?_⟩
  rcases mem_dictInsert_strong hnd1 hp with h1 | h1
  · simpa [h1] using hv
  · exact h.2 p (mem_markRunning_of_ne h.1 h1.1 h1.2)

/-- Every reachable registry is well-formed. -/
theorem registryOk_markRunning_lookup_none {ts : Registry} {k : String}
    (hl : ¬ (dictLookup k (markRunning k ts)).isSome) : markRunning k ts = ts := by
  have hnone : dictLookup k ts = none := by
    rcases Option.eq_none_or_eq_some (dictLookup k ts) with h0 | ⟨td, h0⟩
    · exact h0
    · rw [dictLookup_markRunning_self, h0] at hl
      simp at hl
  unfold markRunning
  rw [hnone]

theorem reachable_registryOk {ts : Registry} (h : Reachable ts) : registryOk ts := by
  induction h with
  | init => exact ⟨List.nodup_nil, by simp⟩
  | create task_id hr ih =>
    exact registryOk_dictInsert ih (Or.inl ⟨rfl, rfl, rfl⟩)
  | running task_id hlook hr ih =>
    rename_i ts1
    have hnd : ((markRunning task_id ts1).map Prod.fst).Nodup := by
      rw [keys_markRunning]; exact ih.1
    refine ⟨hnd, fun p hp => ?_⟩
    obtain ⟨k, td⟩ := p
    by_cases hpk : k = task_id
    · subst hpk
      have hlk : dictLookup k (markRunning k ts1) = some ⟨"running", none, none⟩ := by
        rw [dictLookup_markRunning_self, hlook]
        rfl
      have htd : td = ⟨"running", none, none⟩ :=
        Option.some.inj ((mem_dictLookup hnd hp).symm.trans hlk)
      exact Or.inr (Or.inl (by simp [htd]))
    · exact ih.2 _ (mem_markRunning_of_ne ih.1 hpk hp)
  | run task_id request ev hr ih =>
    rename_i ts1
    cases ev with
    | setupFail msg =>
      simp only [run_pocketflow]
      by_cases hl : (dictLookup task_id ts1).isSome
      · simpa [hl] using
          registryOk_dictInsert ih (Or.inr (Or.inr (Or.inr ⟨rfl, rfl, by simp⟩)))
      · simpa [hl] using ih
    | exits returncode out err =>
      simp only [run_pocketflow]
      by_cases hrc : returncode = 0
      · simpa [hrc] using
          registryOk_terminalWrite ih (Or.inr (Or.inr (Or.inl ⟨rfl, by simp, rfl⟩)))
      · simpa [hrc] using
          registryOk_terminalWrite ih (Or.inr (Or.inr (Or.inr ⟨rfl, rfl, by simp⟩)))
    | timedOut out err =>
      simp only [run_pocketflow]
      by_cases hl : (dictLookup task_id (markRunning task_id ts1)).isSome
      · simpa [hl] using
          registryOk_terminalWrite ih (Or.inr (Or.inr (Or.inr ⟨rfl, rfl, by simp⟩)))
      · simp only [hl, if_false]
        rw [registryOk_markRunning_lookup_none hl]
        exact ih
    | runFail msg =>
      simp only [run_pocketflow]
      by_cases hl : (dictLookup task_id (markRunning task_id ts1)).isSome
      · simpa [hl] using
          registryOk_terminalWrite ih (Or.inr (Or.inr (Or.inr ⟨rfl, rfl, by simp⟩)))
      · simp only [hl, if_false]
        rw [registryOk_markRunning_lookup_none hl]
        exact ih

theorem dictLookup_mem {k : String} {td : TaskData} {ts : Registry}
    (h : dictLookup k ts = some td) : (k, td) ∈ ts := by
  induction ts with
  | nil => simp [dictLookup] at h
  | cons p rest ih =>
    obtain ⟨k', v'⟩ := p
    by_cases hk : k' = k
    · subst hk
      have h' : v' = td := by simpa [dictLookup] using h
      simp [h']
    · simp only [dictLookup, if_neg hk] at h
      exact List.mem_cons_of_mem _ (ih h)

theorem markRunning_of_lookup_none {k : String} {ts : Registry}
    (h : dictLookup k ts = none) : markRunning k ts = ts := by
  unfold markRunning
  rw [h]

/-- Sample request used by the concrete witnesses: a repository URL with
the Pydantic defaults for the remaining fields. -/
def reqA : RepositoryRequest := { repo_url := "https://github.com/u/r" }

/-- Registry after creating task `"task-a"` in the empty registry. -/
def regCreated : Registry := (generate_tutorial "task-a" []).2

/-- Registry observable while the worker's subprocess for `"task-a"` is
still running: the snapshot right after the lines 129-130 status write. -/
def regRunning : Registry := markRunning "task-a" regCreated

/-- The stored record of `"task-a"` in `regRunning`. -/
def tdRunning : TaskData := ⟨"running", none, none⟩

/-- Registry after the background job for `"task-a"` sees its process exit 0. -/
def regDone : Registry :=
  run_pocketflow "task-a" reqA (.exits 0 "hello world" "") regCreated

/-- The stored record of `"task-a"` in `regDone`. -/
def tdDone : TaskData :=
  ⟨"completed",
    some ⟨"./output/task-a", "Tutorial generated successfully", "hello world",
      "https://github.com/u/r", "english"⟩,
    none⟩

/-! ### Claim theorems -/

/-- C1: for every task stored in a reachable registry, exactly one of
result/error is non-null once its status is `completed` or `failed`, and
both are null while its status is `processing` or `running`. -/
theorem task_result_error_exclusive (ts : Registry) (h : Reachable ts)
    (task_id : String) (td : TaskData) (hm : (task_id, td) ∈ ts) :
    ((td.status = "completed" ∨ td.status = "failed") →
      (td.result.isSome ∧ td.error = none) ∨ (td.result = none ∧ td.error.isSome)) ∧
    ((td.status = "processing" ∨ td.status = "running") →
      td.result = none ∧ td.error = none) := by
  have hok := (reachable_registryOk h).2 _ hm
  rcases hok with ⟨hs, hr, he⟩ | ⟨hs, hr, he⟩ | ⟨hs, hr, he⟩ | ⟨hs, hr, he⟩ <;>
    refine ⟨fun hst => ?_, fun hst => ?_⟩ <;> simp_all

theorem task_result_error_exclusive_witness :
    ((("task-a", tdRunning) ∈ regRunning) ∧
      (((tdRunning.status = "completed" ∨ tdRunning.status = "failed") →
        (tdRunning.result.isSome ∧ tdRunning.error = none) ∨
          (tdRunning.result = none ∧ tdRunning.error.isSome)) ∧
      ((tdRunning.status = "processing" ∨ tdRunning.status = "running") →
        tdRunning.result = none ∧ tdRunning.error = none))) ∧
    ((("task-a", tdDone) ∈ regDone) ∧
      (((tdDone.status = "completed" ∨ tdDone.status = "failed") →
        (tdDone.result.isSome ∧ tdDone.error = none) ∨
          (tdDone.result = none ∧ tdDone.error.isSome)) ∧
      ((tdDone.status = "processing" ∨ tdDone.status = "running") →
        tdDone.result = none ∧ tdDone.error = none))) :=
  ⟨⟨by decide,
    task_result_error_exclusive regRunning
      (Reachable.running "task-a" (by decide)
        (Reachable.create "task-a" Reachable.init))
      "task-a" tdRunning (by decide)⟩,
  ⟨by decide,
    task_result_error_exclusive regDone
      (Reachable.run "task-a" reqA (.exits 0 "hello world" "")
        (Reachable.create "task-a" Reachable.init))
      "task-a" tdDone (by decide)⟩⟩

/-- C2: looking up a task id that was never created returns the synthetic
`not_found` response (with the `"Task not found"` error and no result);
`get_status` is a total function, so no exception is raised. -/
theorem get_status_unknown_not_found (task_id : String) (ts : Registry)
    (h : dictLookup task_id ts = none) :
    get_status task_id ts = ⟨task_id, "not_found", none, some "Task not found"⟩ := by
  simp [get_status, h]

theorem get_status_unknown_not_found_witness :
    get_status "missing" [] =
      ⟨"missing", "not_found", none, some "Task not found"⟩ :=
  get_status_unknown_not_found "missing" [] (by decide)

/-- C3 counterexample: the claim that every Job Runner registry write with
an absent task id is silently skipped is false — when the external process
exits (code 0 here), `run_pocketflow` assigns `tasks[task_id] = ...`
unconditionally, inserting a fresh entry into the empty registry. -/
theorem runner_absent_write_not_skipped :
    run_pocketflow "ghost" reqA (.exits 0 "" "") [] ≠ [] ∧
    dictLookup "ghost" (run_pocketflow "ghost" reqA (.exits 0 "" "") []) =
      some ⟨"completed",
        some ⟨"./output/ghost", "Tutorial generated successfully", "",
          "https://github.com/u/r", "english"⟩,
        none⟩ := by
  decide

/-- C3 amended: the Job Runner's `running`-status write and its
timeout/unexpected-fault writes with an absent task id are silently
skipped, leaving the registry unchanged; the terminal write after the
process exits (completed or failed) assigns unconditionally, inserting the
entry when absent.  All paths are total, so nothing raises out of the
background job. -/
theorem runner_absent_id_updates (task_id : String) (request : RepositoryRequest)
    (ts : Registry) (h : dictLookup task_id ts = none) :
    (∀ msg, run_pocketflow task_id request (.setupFail msg) ts = ts) ∧
    (∀ out err, run_pocketflow task_id request (.timedOut out err) ts = ts) ∧
    (∀ msg, run_pocketflow task_id request (.runFail msg) ts = ts) ∧
    (∀ rc out err,
      (dictLookup task_id
        (run_pocketflow task_id request (.exits rc out err) ts)).isSome) := by
  refine ⟨fun msg => ?_, fun out err => ?_, fun msg => ?_, fun rc out err => ?_⟩
  · simp [run_pocketflow, h]
  · simp [run_pocketflow, markRunning_of_lookup_none h, h]
  · simp [run_pocketflow, markRunning_of_lookup_none h, h]
  · by_cases hrc : rc = 0 <;>
      simp [run_pocketflow, hrc, markRunning_of_lookup_none h,
        dictLookup_dictInsert_self]

theorem runner_absent_id_updates_witness :
    (∀ msg, run_pocketflow "ghost" reqA (.setupFail msg) [] = []) ∧
    (∀ out err, run_pocketflow "ghost" reqA (.timedOut out err) [] = []) ∧
    (∀ msg, run_pocketflow "ghost" reqA (.runFail msg) [] = []) ∧
    (∀ rc out err,
      (dictLookup "ghost" (run_pocketflow "ghost" reqA (.exits rc out err) [])).isSome) :=
  runner_absent_id_updates "ghost" reqA [] (by decide)

/-- C4: when the external process exits with code 0, the task's final
state is `completed` with no error, and the result payload's
`output_path` is the task-scoped directory `./output/` ++ task id, its
`stdout` is the last at most 500 characters of the process's standard
output, and it echoes the request's `repo_url` and `language`. -/
theorem runner_exit_zero_completed (task_id : String)
    (request : RepositoryRequest) (ts : Registry) (out err : String) :
    ∃ r : TaskResult,
      dictLookup task_id (run_pocketflow task_id request (.exits 0 out err) ts) =
        some ⟨"completed", some r, none⟩ ∧
      r.output_path = "./output/" ++ task_id ∧
      r.stdout.data = out.data.drop (out.data.length - 500) ∧
      r.stdout.length ≤ 500 ∧
      r.stdout.data <:+ out.data ∧
      r.repo_url = request.repo_url ∧
      r.language = request.language := by
  refine ⟨⟨outputDir task_id, "Tutorial generated successfully",
    if out = "" then "" else pyTail 500 out,
    request.repo_url, request.language⟩, ?_, rfl, ?_, ?_, ?_, rfl, rfl⟩
  · simp [run_pocketflow, dictLookup_dictInsert_self]
  · by_cases h0 : out = "" <;> simp [h0, pyTail]
  · by_cases h0 : out = ""
    · simp [h0]
    · simp only [if_neg h0, pyTail, String.length_mk, List.length_drop]
      omega
  · by_cases h0 : out = ""
    · simp [h0]
    · simpa [if_neg h0, pyTail] using
        List.drop_suffix (out.data.length - 500) out.data

/-- C5: when the external process exits with a non-zero code and standard
error text, the task's final state is `failed` with no result and an error
string that contains the decimal exit code (as an infix) and the stderr
text (as a suffix). -/
theorem runner_nonzero_failed (task_id : String) (request : RepositoryRequest)
    (ts : Registry) (rc : Int) (out err : String) (h : rc ≠ 0) :
    ∃ e : String,
      dictLookup task_id (run_pocketflow task_id request (.exits rc out err) ts) =
        some ⟨"failed", none, some e⟩ ∧
      (toString rc).data <:+: e.data ∧
      err.data <:+ e.data := by
  refine ⟨"Command failed with return code " ++ toString rc ++ ": " ++ err,
    ?_, ?_, ?_⟩
  · simp [run_pocketflow, h, dictLookup_dictInsert_self]
  · refine ⟨("Command failed with return code ").data, (": " ++ err).data, ?_⟩
    simp [String.data_append]
  · refine ⟨("Command failed with return code " ++ toString rc ++ ": ").data, ?_⟩
    simp [String.data_append]

theorem runner_nonzero_failed_witness :
    ∃ e : String,
      dictLookup "task-a" (run_pocketflow "task-a" reqA (.exits 1 "" "boom")
        regCreated) = some ⟨"failed", none, some e⟩ ∧
      (toString (1 : Int)).data <:+: e.data ∧
      ("boom" : String).data <:+ e.data :=
  runner_nonzero_failed "task-a" reqA regCreated 1 "" "boom" (by decide)

/-- C6: when the external process does not exit within the 300-second
timeout, the task (present in the registry) ends `failed` with no result
and the fixed message `"Task timed out after 5 minutes"`; the outcome is
independent of whatever output the process had produced. -/
theorem runner_timeout_failed (task_id : String) (request : RepositoryRequest)
    (ts : Registry) (out err out' err' : String)
    (h : (dictLookup task_id ts).isSome) :
    dictLookup task_id (run_pocketflow task_id request (.timedOut out err) ts) =
      some ⟨"failed", none, some "Task timed out after 5 minutes"⟩ ∧
    run_pocketflow task_id request (.timedOut out err) ts =
      run_pocketflow task_id request (.timedOut out' err') ts := by
  refine ⟨?_, rfl⟩
  have h1 : (dictLookup task_id (markRunning task_id ts)).isSome := by
    rw [dictLookup_markRunning_self]
    rcases Option.isSome_iff_exists.mp h with ⟨td, htd⟩
    simp [htd]
  simp [run_pocketflow, h1, dictLookup_dictInsert_self]

theorem runner_timeout_failed_witness :
    dictLookup "task-a" (run_pocketflow "task-a" reqA
      (.timedOut "some stdout" "some stderr") regCreated) =
      some ⟨"failed", none, some "Task timed out after 5 minutes"⟩ ∧
    run_pocketflow "task-a" reqA (.timedOut "some stdout" "some stderr")
      regCreated =
      run_pocketflow "task-a" reqA (.timedOut "other" "output") regCreated :=
  runner_timeout_failed "task-a" reqA regCreated "some stdout" "some stderr"
    "other" "output" (by decide)

/-- C7: for a task id present in the registry, every possible outcome of
preparing/running the external command leaves the task in a terminal state
(`completed` or `failed`); in particular a fault raised while preparing or
running the command is absorbed into a `failed` record carrying the
fault's textual description.  `run_pocketflow` is a total function, so no
exception propagates to its caller. -/
theorem runner_always_terminal (task_id : String) (request : RepositoryRequest)
    (ev : RunEvent) (ts : Registry) (h : (dictLookup task_id ts).isSome) :
    (∃ td : TaskData,
      dictLookup task_id (run_pocketflow task_id request ev ts) = some td ∧
      (td.status = "completed" ∨ td.status = "failed")) ∧
    (∀ msg, (ev = .setupFail msg ∨ ev = .runFail msg) →
      dictLookup task_id (run_pocketflow task_id request ev ts) =
        some ⟨"failed", none, some ("Unexpected error: " ++ msg)⟩) := by
  have h1 : (dictLookup task_id (markRunning task_id ts)).isSome := by
    rw [dictLookup_markRunning_self]
    rcases Option.isSome_iff_exists.mp h with ⟨td, htd⟩
    simp [htd]
  cases ev with
  | setupFail msg =>
    refine ⟨⟨⟨"failed", none, some ("Unexpected error: " ++ msg)⟩, ?_, Or.inr rfl⟩,
      fun msg' hmsg => ?_⟩
    · simp [run_pocketflow, h, dictLookup_dictInsert_self]
    · rcases hmsg with hmsg | hmsg <;> cases hmsg
      simp [run_pocketflow, h, dictLookup_dictInsert_self]
  | exits rc out err =>
    refine ⟨?_, fun msg hmsg => by rcases hmsg with hmsg | hmsg <;> cases hmsg⟩
    by_cases hrc : rc = 0
    · exact ⟨⟨"completed",
        some ⟨outputDir task_id, "Tutorial generated successfully",
          if out = "" then "" else pyTail 500 out,
          request.repo_url, request.language⟩, none⟩,
        by simp [run_pocketflow, hrc, dictLookup_dictInsert_self], Or.inl rfl⟩
    · exact ⟨⟨"failed", none,
        some ("Command failed with return code " ++ toString rc ++ ": " ++ err)⟩,
        by simp [run_pocketflow, hrc, dictLookup_dictInsert_self], Or.inr rfl⟩
  | timedOut out err =>
    refine ⟨⟨⟨"failed", none, some "Task timed out after 5 minutes"⟩, ?_, Or.inr rfl⟩,
      fun msg hmsg => by rcases hmsg with hmsg | hmsg <;> cases hmsg⟩
    simp [run_pocketflow, h1, dictLookup_dictInsert_self]
  | runFail msg =>
    refine ⟨⟨⟨"failed", none, some ("Unexpected error: " ++ msg)⟩, ?_, Or.inr rfl⟩,
      fun msg' hmsg => ?_⟩
    · simp [run_pocketflow, h1, dictLookup_dictInsert_self]
    · rcases hmsg with hmsg | hmsg <;> cases hmsg
      simp [run_pocketflow, h1, dictLookup_dictInsert_self]

theorem runner_always_terminal_witness :
    (∃ td : TaskData,
      dictLookup "task-a" (run_pocketflow "task-a" reqA
        (.runFail "makedirs exploded") regCreated) = some td ∧
      (td.status = "completed" ∨ td.status = "failed")) ∧
    (∀ msg, ((.runFail "makedirs exploded" : RunEvent) = .setupFail msg ∨
        (.runFail "makedirs exploded" : RunEvent) = .runFail msg) →
      dictLookup "task-a" (run_pocketflow "task-a" reqA
        (.runFail "makedirs exploded") regCreated) =
        some ⟨"failed", none, some ("Unexpected error: " ++ msg)⟩) :=
  runner_always_terminal "task-a" reqA (.runFail "makedirs exploded")
    regCreated (by decide)

/-- C8: on every reachable registry, `list_tasks` lists every created task
exactly once (its id column is exactly the registry's key sequence, which
has no duplicates), each entry's `has_result` is true iff that entry's
status is `completed`, and `total_tasks` equals the number of entries. -/
theorem list_tasks_correct (ts : Registry) (h : Reachable ts) :
    (list_tasks ts).total_tasks = (list_tasks ts).tasks.length ∧
    (list_tasks ts).tasks.map TaskSummary.task_id = ts.map Prod.fst ∧
    ((list_tasks ts).tasks.map TaskSummary.task_id).Nodup ∧
    ∀ e ∈ (list_tasks ts).tasks, (e.has_result = true ↔ e.status = "completed") := by
  have hok := reachable_registryOk h
  refine ⟨by simp [list_tasks], by simp [list_tasks], ?_, fun e he => ?_⟩
  · simpa [list_tasks] using hok.1
  · simp only [list_tasks, List.mem_map] at he
    obtain ⟨p, hp, rfl⟩ := he
    have := hok.2 p hp
    rcases this with ⟨hs, hr, _⟩ | ⟨hs, hr, _⟩ | ⟨hs, hr, _⟩ | ⟨hs, hr, _⟩ <;>
      simp_all

theorem list_tasks_correct_witness :
    (list_tasks regDone).total_tasks = (list_tasks regDone).tasks.length ∧
    (list_tasks regDone).tasks.map TaskSummary.task_id = regDone.map Prod.fst ∧
    ((list_tasks regDone).tasks.map TaskSummary.task_id).Nodup ∧
    ∀ e ∈ (list_tasks regDone).tasks, (e.has_result = true ↔ e.status = "completed") :=
  list_tasks_correct regDone
    (Reachable.run "task-a" reqA (.exits 0 "hello world" "")
      (Reachable.create "task-a" Reachable.init))

/-- C9: on every reachable registry, the status `"not_found"` is never
stored; `get_status` answers `"not_found"` only for ids absent from the
registry. -/
theorem not_found_never_stored (ts : Registry) (h : Reachable ts) :
    (∀ p ∈ ts, p.2.status ≠ "not_found") ∧
    (∀ task_id, (get_status task_id ts).status = "not_found" →
      dictLookup task_id ts = none) := by
  have hok := reachable_registryOk h
  have hstat : ∀ p ∈ ts, p.2.status ≠ "not_found" := by
    intro p hp
    rcases hok.2 p hp with ⟨hs, _⟩ | ⟨hs, _⟩ | ⟨hs, _⟩ | ⟨hs, _⟩ <;> simp [hs]
  refine ⟨hstat, fun task_id hnf => ?_⟩
  cases hl : dictLookup task_id ts with
  | none => rfl
  | some td =>
    exfalso
    have hmem := dictLookup_mem hl
    have : (get_status task_id ts).status = td.status := by
      simp [get_status, hl]
    exact hstat _ hmem (by rw [← this, hnf])

theorem not_found_never_stored_witness :
    (∀ p ∈ regDone, p.2.status ≠ "not_found") ∧
    (∀ task_id, (get_status task_id regDone).status = "not_found" →
      dictLookup task_id regDone = none) :=
  not_found_never_stored regDone
    (Reachable.run "task-a" reqA (.exits 0 "hello world" "")
      (Reachable.create "task-a" Reachable.init))

/-- C10: a status lookup for an id that was never created carries the
non-null error string `"Task not found"` together with status
`"not_found"` — an error field populated even though the status is not
`"failed"`. -/
theorem get_status_unknown_error_msg (task_id : String) (ts : Registry)
    (h : dictLookup task_id ts = none) :
    (get_status task_id ts).error = some "Task not found" ∧
    (get_status task_id ts).status = "not_found" ∧
    (get_status task_id ts).status ≠ "failed" := by
  simp [get_status, h]

theorem get_status_unknown_error_msg_witness :
    (get_status "never-created" regDone).error = some "Task not found" ∧
    (get_status "never-created" regDone).status = "not_found" ∧
    (get_status "never-created" regDone).status ≠ "failed" :=
  get_status_unknown_error_msg "never-created" regDone (by decide)

end WebApi
